import Mathlib

/-!
Shallow embedding of the Activity Monitor of the telegram-gas-tracker
repository (files `src/tracker/ethereum/wallet_tracker.py`,
`src/tracker/ethereum/wallet_tracker_storage.py`, `src/gas_tracker.py`,
`src/tracker/config/config.py`), together with theorems settling the
frozen claims C1-C10 about it.

Conventions of the embedding:
* Python `int` is modelled as `Int`; block numbers and gas prices are
  carried as `Int` exactly as Python does.
* Python `float` arithmetic in `__calculate_sleep_time` is modelled over
  `ℚ`; every constant involved (`7`, `0.5`, `1.5`, `2`) and the inputs used
  in the theorems are exactly representable, so the rational model agrees
  with the float computation on them.
* A DynamoDB table and the in-memory cache are both modelled as ordered
  association lists from `chat_id` to the subscriber's tracked-wallet list
  (`WalletMap`), with dict-like insert-or-replace semantics.
* A stored `last_checked_block` field can be absent (`KeyError` on access),
  present but not parseable by `int(...)` (`ValueError`), or a genuine
  integer; `StoredCursor` has one constructor for each case.
* Exceptions that escape the Python code are surfaced as `Option PyErr`
  results (`none` = the function returned normally); state mutations that
  happened before the exception are kept, as in Python.
-/

set_option autoImplicit false

/-- Outcome of reading and parsing the stored `last_checked_block` field of a
wallet record: the key can be missing (dict access raises `KeyError`), present
but rejected by `int(...)` (`ValueError`), or an actual integer. -/
inductive StoredCursor where
  | missing
  | unparseable
  | val (n : Int)
deriving DecidableEq

/-- One tracked-wallet record as stored in the `WalletTracker` table:
`{"wallet_address": ..., "wallet_tag": ..., "last_checked_block": ..., "paused": ...}`.
The `paused` key is read with `wallet.get("paused", False)`, so a record
without the key behaves exactly like `paused = false`. -/
structure Wallet where
  wallet_address : String
  wallet_tag : String
  last_checked_block : StoredCursor
  paused : Bool
deriving DecidableEq

/-- A keyed table of subscriber records, used for both the DynamoDB table and
the in-memory `tracked_wallets_cache`: an ordered association list from
`chat_id` to that subscriber's `tracked_wallets` list. -/
def WalletMap : Type := List (Int × List Wallet)

instance : DecidableEq WalletMap := by
  unfold WalletMap
  infer_instance

/-- Dictionary lookup (`table.get_item` / `cache.get`): first binding wins. -/
def mapFind : WalletMap → Int → Option (List Wallet)
  | [], _ => none
  | (k, v) :: t, key => if k = key then some v else mapFind t key

/-- Dictionary write (`put_item` / `update_item` / `cache[chat_id] = ...`):
replace the existing binding in place, or append a new one. -/
def mapInsert : WalletMap → Int → List Wallet → WalletMap
  | [], key, v => [(key, v)]
  | (k, w) :: t, key, v =>
      if k = key then (key, v) :: t else (k, w) :: mapInsert t key v

/-- Exceptions that escape the embedded Python functions. -/
inductive PyErr where
  | keyError
  | unboundLocal
deriving DecidableEq

/-- Combined persistent and cached state of `WalletTrackerStorage`:
the DynamoDB table (`store`) and `tracked_wallets_cache` (`cache`). -/
structure StorageState where
  store : WalletMap
  cache : WalletMap
deriving DecidableEq

/-- Embedding of `WalletTrackerStorage.get_tracked_wallets`: serve from the
cache when the subscriber is cached, otherwise read the table and populate
the cache; a subscriber with no record yields `[]`. -/
def get_tracked_wallets (st : StorageState) (chat : Int) :
    StorageState × List Wallet :=
  match mapFind st.cache chat with
  | some ws => (st, ws)
  | none =>
      match mapFind st.store chat with
      | some ws => ({ st with cache := mapInsert st.cache chat ws }, ws)
      | none => (st, [])

/-- Embedding of `WalletTrackerStorage.update_wallet`.  `failWrite = true`
means `table.update_item` raises `ClientError`: the handler only logs, so the
function still returns normally (`none`) and neither store nor cache changes;
on success the table is written first and the cache entry second. -/
def update_wallet (failWrite : Bool) (st : StorageState) (chat : Int)
    (ws : List Wallet) : StorageState × Option PyErr :=
  if failWrite then (st, none)
  else ({ store := mapInsert st.store chat ws,
          cache := mapInsert st.cache chat ws }, none)

/-- Embedding of `WalletTrackerStorage.remove_wallet`.  When the subscriber
has a record, the filtered list is written back (a failing write is caught and
logged, leaving both store and cache untouched).  When the subscriber has no
record, the local `tracked_wallets` is never assigned, and the unconditional
cache-update line raises `UnboundLocalError`, which is not a `ClientError`
and escapes to the caller. -/
def remove_wallet (failWrite : Bool) (st : StorageState) (chat : Int)
    (addr : String) : StorageState × Option PyErr :=
  match mapFind st.store chat with
  | some tracked =>
      let tracked2 := tracked.filter (fun w => w.wallet_address ≠ addr)
      if failWrite then (st, none)
      else ({ store := mapInsert st.store chat tracked2,
              cache := mapInsert st.cache chat tracked2 }, none)
  | none => (st, some .unboundLocal)

/-- The `wallet_address.endsWith(".eth")` test of `add_wallet`, modelled over
the string's character list so that it evaluates inside the kernel. -/
def ends_with_eth (s : String) : Bool :=
  s.toList.reverse.take 4 = ['h', 't', 'e', '.']

/-- Embedding of `WalletTrackerStorage.add_wallet`.  Result components: the
state after the call, the returned wallet address (`none` both on ENS
resolution failure and on a caught `ClientError`), and an exception escaping
the call.  For a subscriber who already has a record the new wallet is
appended and written through to table and cache.  For a first-time subscriber
the record is written with `put_item`, after which the cache-update line
references the never-assigned local `tracked_wallets` and raises
`UnboundLocalError` - the table write has already happened, the cache entry
has not, and no address is returned. -/
def add_wallet (resolveEns : String → Option String) (failWrite : Bool)
    (st : StorageState) (chat : Int) (addr tag : String) (startBlock : Int) :
    StorageState × Option String × Option PyErr :=
  let resolved? : Option String :=
    if ends_with_eth addr then resolveEns addr else some addr
  match resolved? with
  | none => (st, none, none)
  | some wa =>
      let newWallet : Wallet :=
        { wallet_address := wa, wallet_tag := tag,
          last_checked_block := .val startBlock, paused := false }
      match mapFind st.store chat with
      | some tracked =>
          let tracked2 := tracked ++ [newWallet]
          if failWrite then (st, none, none)
          else ({ store := mapInsert st.store chat tracked2,
                  cache := mapInsert st.cache chat tracked2 }, some wa, none)
      | none =>
          if failWrite then (st, none, none)
          else ({ st with store := mapInsert st.store chat [newWallet] },
                none, some .unboundLocal)

/-- Helper for `handle_wallet_state`: set `paused` on the first wallet whose
address matches, as the Python `for ... break` loop does. -/
def setPausedFirst : List Wallet → String → Bool → List Wallet
  | [], _, _ => []
  | w :: t, addr, p =>
      if w.wallet_address = addr then { w with paused := p } :: t
      else w :: setPausedFirst t addr p

/-- Embedding of `WalletTrackerStorage.handle_wallet_state` (pause/resume):
read the subscriber's record, flip `paused` on the first matching wallet, and
write the whole list back through table and cache; a subscriber with no
record is a no-op. -/
def handle_wallet_state (failWrite : Bool) (st : StorageState) (chat : Int)
    (addr : String) (paused : Bool) : StorageState × Option PyErr :=
  match mapFind st.store chat with
  | none => (st, none)
  | some tracked =>
      let tracked2 := setPausedFirst tracked addr paused
      if failWrite then (st, none)
      else ({ store := mapInsert st.store chat tracked2,
              cache := mapInsert st.cache chat tracked2 }, none)

/-- Embedding of `WalletTrackerStorage.get_all`: `table.scan()` returns every
record of the table. -/
def get_all (st : StorageState) : List (Int × List Wallet) :=
  st.store

/-- Embedding of one pass of the loop body of
`WalletTrackerStorage.update_db_cache`: for every item of the scan, overwrite
that subscriber's cache entry; cache entries of subscribers absent from the
scan are never touched. -/
def update_db_cache (cache : WalletMap) (items : List (Int × List Wallet)) :
    WalletMap :=
  items.foldl (fun c it => mapInsert c it.1 it.2) cache

/-- One gas-price reading `{low, average, fast}` (integers, gwei), as parsed
from `SafeGasPrice` / `ProposeGasPrice` / `FastGasPrice` in
`GasTracker.monitor_gas_prices`.  The same shape is used for the
`last_sent_prices` snapshot of a subscriber. -/
structure GasReading where
  low : Int
  average : Int
  fast : Int
deriving DecidableEq

/-- `ConfigHandler.update_threshold` default: `self._update_threshold = 5`
(`src/tracker/config/config.py`), overridable by the `UPDATE_THRESHOLD`
environment variable; the embedded gas step takes the threshold as a
parameter and the claim theorems instantiate it with this default. -/
def update_threshold : Int := 5

/-- Embedding of the per-subscriber body of the `for chat_id in
self.subscribers` loop of `GasTracker.monitor_gas_prices`: `lastSent` is
`self.last_sent_prices.get(chat_id, ...)` (so `none` means the subscriber has
no snapshot and the default `{"low": 0, "average": 0, "fast": 0}` baseline is
used), and the result is the subscriber's new snapshot entry together with
whether an alert was sent.  The snapshot is overwritten before the send, and
kept even if the send itself fails, exactly as in the source. -/
def monitor_gas_prices_step (threshold : Int) (lastSent : Option GasReading)
    (r : GasReading) : Option GasReading × Bool :=
  let last := lastSent.getD ⟨0, 0, 0⟩
  if threshold < |r.low - last.low| ∨ threshold < |r.average - last.average| ∨
      threshold < |r.fast - last.fast| then
    (some r, true)
  else
    (lastSent, false)

/-- Embedding of the base delay of `WalletTracker.__calculate_sleep_time`:
`max(7, processing_time * 0.5)`, over `ℚ`. -/
def base_sleep_time (processing_time : ℚ) : ℚ :=
  max 7 (processing_time * (1 / 2))

/-- Embedding of `WalletTracker.__calculate_sleep_time`: scale the base delay
by 2 above 100 transactions and by 1.5 above 50, then cap the result at
`max_sleep_time` (default argument 60 in the source; the wallet loop calls it
with 15). -/
def calculate_sleep_time (total_transactions : Nat) (processing_time : ℚ)
    (max_sleep_time : ℚ) : ℚ :=
  let base := base_sleep_time processing_time
  let sleep :=
    if 100 < total_transactions then base * 2
    else if 50 < total_transactions then base * (3 / 2)
    else base
  min sleep max_sleep_time

/-- One transaction record of an Etherscan `txlist` batch, reduced to the
fields the cursor logic reads: `blockNumber` (already parsed by `int(...)`)
plus an opaque identifier standing for the rest of the record. -/
structure Tx where
  id : Nat
  blockNumber : Int
deriving DecidableEq

/-- Observable actions of one wallet-loop tick, in program order:
`dispatch` is one `__send_transaction_details` call for one transaction,
`dataError` is the invalid-cursor message sent to the subscriber, and
`persistCursor` is one `update_last_checked_block` call. -/
inductive Act where
  | dispatch (chat : Int) (addr : String) (tx : Tx)
  | dataError (chat : Int) (addr : String)
  | persistCursor (chat : Int) (addr : String) (block : Int)
deriving DecidableEq

/-- Outcome of one `__check_wallet_transactions` fetch for one wallet:
either the HTTP request completed and produced a transaction list (a non-200
status or an empty `result` both behave as `ok []`: the function returns
`None` without dispatching), or an exception was raised inside the check and
caught by the broad `except Exception` of the monitor loop. -/
inductive FetchResult where
  | ok (txs : List Tx)
  | failed
deriving DecidableEq

/-- Embedding of the dispatch-and-return part of
`WalletTracker.__check_wallet_transactions` once the fetch has produced
`txs`: an empty list returns `None` with no dispatch; otherwise
`new_last_checked_block` is the `blockNumber` of the last element, one
message is dispatched per transaction in batch order, and that block number
is returned. -/
def check_wallet_transactions (chat : Int) (addr : String) (txs : List Tx) :
    List Act × Option Int :=
  match txs.getLast? with
  | none => ([], none)
  | some last =>
      (txs.map (fun t => Act.dispatch chat addr t), some last.blockNumber)

/-- State of the Python local `new_last_checked_block` of
`monitor_wallet_transactions`: never assigned yet, or holding the result of
the most recent successful `__check_wallet_transactions` call.  The variable
is NOT reset between wallets or between ticks, and a failing check leaves it
at its previous value. -/
inductive VarState where
  | unbound
  | bound (v : Option Int)
deriving DecidableEq

/-- Helper for `update_last_checked_block`: set `last_checked_block` on the
first wallet whose address matches, as the Python `for ... break` loop does. -/
def setCursorFirst : List Wallet → String → Int → List Wallet
  | [], _, _ => []
  | w :: t, addr, b =>
      if w.wallet_address = addr then { w with last_checked_block := .val b } :: t
      else w :: setCursorFirst t addr b

/-- Embedding of `WalletTracker.update_last_checked_block`: read the
subscriber's wallets through the cache, set the cursor of the first wallet
matching the address, and write the whole list back through
`storage.update_wallet`. -/
def update_last_checked_block (st : StorageState) (chat : Int) (addr : String)
    (newBlock : Int) : StorageState :=
  let r := get_tracked_wallets st chat
  let ws2 := setCursorFirst r.2 addr newBlock
  (update_wallet false r.1 chat ws2).1

/-- Mutable state threaded through one wallet-loop tick: the storage, the
loop-carried `new_last_checked_block` local, and the log of observable
actions so far. -/
structure TickState where
  storage : StorageState
  lastVar : VarState
  log : List Act
deriving DecidableEq

/-- Embedding of the per-wallet body of the `for wallet in tracked_wallets`
loop of `monitor_wallet_transactions`.  A paused wallet is skipped.  A wallet
whose stored cursor key is missing raises `KeyError` twice: once at
`int(wallet["last_checked_block"])`, where it is caught, and again inside the
handler's own log call `logger.error(..., wallet["last_checked_block"])`,
from which it escapes - that error is fatal to the tick (second component
`some .keyError`).  A present-but-unparseable cursor raises `ValueError`,
which the handler survives: the data-error message is sent and the wallet is
skipped.  With a valid cursor the fetch runs with `startblock = cursor + 1`;
on success `new_last_checked_block` is (re)bound to the check's result, on a
raised exception it keeps its previous value (reading it while still unbound
is a fatal `UnboundLocalError`).  Finally `if new_last_checked_block:` - true
exactly for a bound value `some n` with `n ≠ 0` - triggers
`update_last_checked_block` for the CURRENT wallet with whatever value the
variable holds. -/
def walletStep (adapter : String → Int → FetchResult) (chat : Int)
    (s : TickState) (w : Wallet) : TickState × Option PyErr :=
  if w.paused then (s, none)
  else
    match w.last_checked_block with
    | .missing => (s, some .keyError)
    | .unparseable =>
        ({ s with log := s.log ++ [.dataError chat w.wallet_address] }, none)
    | .val cur =>
        let afterFetch : TickState :=
          match adapter w.wallet_address (cur + 1) with
          | .failed => s
          | .ok txs =>
              let c := check_wallet_transactions chat w.wallet_address txs
              { s with log := s.log ++ c.1, lastVar := .bound c.2 }
        match afterFetch.lastVar with
        | .unbound => (afterFetch, some .unboundLocal)
        | .bound v =>
            match v with
            | some nb =>
                if nb ≠ 0 then
                  ({ afterFetch with
                      storage :=
                        update_last_checked_block afterFetch.storage chat
                          w.wallet_address nb,
                      log := afterFetch.log ++
                        [.persistCursor chat w.wallet_address nb] }, none)
                else (afterFetch, none)
            | none => (afterFetch, none)

/-- Run the per-wallet loop over one subscriber's wallet list; a fatal error
aborts the remainder (it escapes the `while True` handler, which only catches
`CancelledError` and `ClientError`). -/
def runWallets (adapter : String → Int → FetchResult) (chat : Int) :
    TickState → List Wallet → TickState × Option PyErr
  | s, [] => (s, none)
  | s, w :: rest =>
      let r := walletStep adapter chat s w
      match r.2 with
      | none => runWallets adapter chat r.1 rest
      | some e => (r.1, some e)

/-- Run the per-subscriber loop of one tick over the scanned items. -/
def runItems (adapter : String → Int → FetchResult) :
    TickState → List (Int × List Wallet) → TickState × Option PyErr
  | s, [] => (s, none)
  | s, it :: rest =>
      let r := runWallets adapter it.1 s it.2
      match r.2 with
      | none => runItems adapter r.1 rest
      | some e => (r.1, some e)

/-- Embedding of one tick of `monitor_wallet_transactions`: scan the table
(`storage.get_all`), then process every wallet of every item.  `v0` is the
value the loop-carried `new_last_checked_block` local has when the tick
starts (`.unbound` on the first tick of the process). -/
def monitorTick (adapter : String → Int → FetchResult) (st0 : StorageState)
    (v0 : VarState) : TickState × Option PyErr :=
  runItems adapter ⟨st0, v0, []⟩ (get_all st0)

/-- Persisted cursor visible after a prefix of a tick's action log: the value
written by the latest `persistCursor` action, or `prior` if none occurred. -/
def persistedAfter (prior : Int) (acts : List Act) : Int :=
  acts.foldl
    (fun c a => match a with | .persistCursor _ _ b => b | _ => c) prior

/-! ## Helper lemmas about the association-map and the action log -/

theorem mapFind_mapInsert_self (m : WalletMap) (k : Int) (v : List Wallet) :
    mapFind (mapInsert m k v) k = some v := by
  induction m with
  | nil => simp [mapInsert, mapFind]
  | cons hd t ih =>
      obtain ⟨k2, v2⟩ := hd
      by_cases hk : k2 = k
      · subst hk
        simp [mapInsert, mapFind]
      · simp [mapInsert, mapFind, hk, ih]

theorem mapFind_mapInsert_ne (m : WalletMap) (k key : Int) (v : List Wallet)
    (h : key ≠ k) : mapFind (mapInsert m k v) key = mapFind m key := by
  induction m with
  | nil => simp [mapInsert, mapFind, Ne.symm h]
  | cons hd t ih =>
      obtain ⟨k2, v2⟩ := hd
      by_cases hk : k2 = k
      · subst hk
        simp [mapInsert, mapFind, Ne.symm h]
      · simp [mapInsert, mapFind, hk, ih]

theorem persistedAfter_dispatch_map (prior : Int) (chat : Int) (addr : String)
    (l : List Tx) :
    persistedAfter prior (l.map (fun t => Act.dispatch chat addr t)) = prior := by
  induction l generalizing prior with
  | nil => rfl
  | cons a t ih => exact ih prior

theorem blockNumber_le_getLast :
    ∀ (txs : List Tx),
      List.Chain' (fun a b => a.blockNumber ≤ b.blockNumber) txs →
      ∀ lastTx, txs.getLast? = some lastTx →
      ∀ t ∈ txs, t.blockNumber ≤ lastTx.blockNumber := by
  intro txs
  induction txs with
  | nil => intro _ lastTx hlast; cases hlast
  | cons a t ih =>
      intro h lastTx hlast x hx
      cases t with
      | nil =>
          have ha : lastTx = a := by
            simpa using hlast.symm
          have hxa : x = a := by simpa using hx
          subst ha
          subst hxa
          exact le_refl _
      | cons b t2 =>
          rw [List.getLast?_cons_cons] at hlast
          obtain ⟨hab, hch⟩ := List.chain'_cons.mp h
          have ihh := ih hch lastTx hlast
          rcases List.mem_cons.mp hx with hxa | hxm
          · subst hxa
            exact le_trans hab (ihh b (List.mem_cons_self b t2))
          · exact ihh x hxm

theorem update_db_cache_find_of_not_mem (items : List (Int × List Wallet))
    (cache : WalletMap) (chat : Int) (h : chat ∉ items.map Prod.fst) :
    mapFind (update_db_cache cache items) chat = mapFind cache chat := by
  induction items generalizing cache with
  | nil => rfl
  | cons it t ih =>
      simp only [List.map_cons, List.mem_cons, not_or] at h
      have hstep :
          update_db_cache cache (it :: t) =
            update_db_cache (mapInsert cache it.1 it.2) t := rfl
      rw [hstep, ih _ h.2, mapFind_mapInsert_ne _ _ _ _ h.1]

/-! ## Concrete states and adapters used by the claim theorems -/

/-- Wallet used by the C1 theorems: cursor 9, active. -/
def walletC1 : Wallet := ⟨"0xaaa", "#t", .val 9, false⟩

/-- Transaction adapter used by the C1 counterexample: the fetch yields two
transactions, at blocks 10 and 12 (ascending, both past the cursor 9). -/
def adapterC1 : String → Int → FetchResult := fun _ _ => .ok [⟨0, 10⟩, ⟨1, 12⟩]

/-- Tick state at the start of the C1 scenario: subscriber 1 tracks
`walletC1`, cache in sync with the table, loop variable still unbound. -/
def stateC1 : TickState :=
  ⟨⟨[(1, [walletC1])], [(1, [walletC1])]⟩, .unbound, []⟩

/-- Wallet A of the C2 scenario: cursor 50, active. -/
def walletA : Wallet := ⟨"0xaa", "", .val 50, false⟩

/-- Wallet B of the C2 scenario: cursor 200, active. -/
def walletB : Wallet := ⟨"0xbb", "", .val 200, false⟩

/-- Storage at the start of the C2 scenario: subscriber 1 tracks wallets A
and B, cache in sync with the table. -/
def storageC2 : StorageState :=
  ⟨[(1, [walletA, walletB])], [(1, [walletA, walletB])]⟩

/-- Transaction adapter of the C2 scenario: wallet A's history has exactly
one transaction, at block 100 (so any fetch starting at or before block 100
returns it and later fetches return nothing), and every fetch for wallet B
raises a transport error.  The adapter never returns a transaction below the
requested start block. -/
def adapterC2 : String → Int → FetchResult := fun addr start =>
  if addr = "0xaa" then (if start ≤ 100 then .ok [⟨0, 100⟩] else .ok [])
  else .failed

/-- Wallet of the C5 scenario whose stored record has no
`last_checked_block` key at all. -/
def walletC5 : Wallet := ⟨"0xcc", "", .missing, false⟩

/-- Healthy wallet listed after `walletC5` in the same tick, with one new
transaction available at block 6. -/
def walletD : Wallet := ⟨"0xdd", "", .val 5, false⟩

/-- Storage of the C5 scenario: one subscriber tracking the broken wallet
followed by the healthy one. -/
def storageC5 : StorageState := ⟨[(1, [walletC5, walletD])], []⟩

/-- Transaction adapter of the C5 scenario: the healthy wallet has a new
transaction at block 6; all other fetches return nothing. -/
def adapterC5 : String → Int → FetchResult := fun addr _ =>
  if addr = "0xdd" then .ok [⟨0, 6⟩] else .ok []

/-- Wallet used by the C6 scenarios. -/
def walletC6 : Wallet := ⟨"0xee", "", .val 7, false⟩

/-- Wallet cached for subscriber 1 in the C7 scenario. -/
def walletC7 : Wallet := ⟨"0xff", "", .val 3, false⟩

/-- Ascending transaction batch of the C3 witness: blocks `[10, 10, 12]`. -/
def batchC3 : List Tx := [⟨0, 10⟩, ⟨1, 10⟩, ⟨2, 12⟩]

/-! ## Claim theorems -/

/-- C1, counterexample.  The claim says the cursor is persisted after each
individual event is dispatched, so that between two dispatches the persisted
cursor covers every already-delivered event except at most the one in flight.
On the code, processing the 2-transaction batch `[block 10, block 12]` for a
watch with prior cursor 9 produces the action log
`[dispatch(block 10), dispatch(block 12), persist(12)]`: there is no persist
between the two dispatches, and at the point between them the persisted
cursor is still 9, which does not cover the already-delivered transaction at
block 10 (which is no longer in flight). -/
theorem batch_no_persist_between_dispatches :
    (walletStep adapterC1 1 stateC1 walletC1).1.log =
      [.dispatch 1 "0xaaa" ⟨0, 10⟩, .dispatch 1 "0xaaa" ⟨1, 12⟩,
        .persistCursor 1 "0xaaa" 12]
    ∧ persistedAfter 9
        ((walletStep adapterC1 1 stateC1 walletC1).1.log.take 1) = 9
    ∧ ¬ ((10 : Int) ≤ 9) := by
  decide

/-- C1, amended.  During one wallet-loop tick that processes a non-empty
transaction batch for a watch, the cursor is persisted exactly once, after
every event of the batch has been dispatched, and is set to the block number
of the batch's last transaction; at every point between two dispatches the
persisted cursor is still the prior cursor (so a crash mid-batch re-delivers
the whole batch on restart, not only the undelivered tail). -/
theorem batch_persist_once_after_all_dispatches
    (adapter : String → Int → FetchResult) (chat : Int) (addr tag : String)
    (prior : Int) (st : StorageState) (txs : List Tx) (lastTx : Tx)
    (hfetch : adapter addr (prior + 1) = .ok txs)
    (hlast : txs.getLast? = some lastTx) (hnz : lastTx.blockNumber ≠ 0) :
    (walletStep adapter chat ⟨st, .unbound, []⟩
        ⟨addr, tag, .val prior, false⟩).1.log =
      txs.map (fun t => Act.dispatch chat addr t) ++
        [Act.persistCursor chat addr lastTx.blockNumber]
    ∧ ∀ k ≤ txs.length,
        persistedAfter prior
          ((walletStep adapter chat ⟨st, .unbound, []⟩
              ⟨addr, tag, .val prior, false⟩).1.log.take k) = prior := by
  have hlog :
      (walletStep adapter chat ⟨st, .unbound, []⟩
          ⟨addr, tag, .val prior, false⟩).1.log =
        txs.map (fun t => Act.dispatch chat addr t) ++
          [Act.persistCursor chat addr lastTx.blockNumber] := by
    unfold walletStep
    simp [hfetch, check_wallet_transactions, hlast, hnz]
  refine ⟨hlog, fun k hk => ?_⟩
  rw [hlog, List.take_append_of_le_length (by simpa using hk), ← List.map_take]
  exact persistedAfter_dispatch_map prior chat addr (txs.take k)

/-- C1, witness for the amended theorem, at the batch `[block 10, block 12]`
with prior cursor 9. -/
theorem batch_persist_once_after_all_dispatches_witness :
    adapterC1 "0xaaa" (9 + 1) = .ok [⟨0, 10⟩, ⟨1, 12⟩]
    ∧ ([⟨0, 10⟩, ⟨1, 12⟩] : List Tx).getLast? = some ⟨1, 12⟩
    ∧ ((⟨1, 12⟩ : Tx).blockNumber ≠ 0)
    ∧ (walletStep adapterC1 1 ⟨⟨[], []⟩, .unbound, []⟩
          ⟨"0xaaa", "#t", .val 9, false⟩).1.log =
        [.dispatch 1 "0xaaa" ⟨0, 10⟩, .dispatch 1 "0xaaa" ⟨1, 12⟩,
          .persistCursor 1 "0xaaa" 12] := by
  refine ⟨by decide, by decide, by decide, ?_⟩
  exact (batch_persist_once_after_all_dispatches adapterC1 1 "0xaaa" "#t" 9
    ⟨[], []⟩ [⟨0, 10⟩, ⟨1, 12⟩] ⟨1, 12⟩ (by decide) (by decide) (by decide)).1

/-- C2, code bug.  At the start of the tick, subscriber 1 tracks wallet A
(cursor 50) and wallet B (cursor 200); wallet A's fetch returns one
transaction at block 100 (the adapter never returns a transaction below the
requested start block, as the conjunct about `adapterC2` states), and wallet
B's fetch raises a transport error.  The tick completes without a fatal
error, yet B's stored cursor ends at 100 - it DECREASED from 200, because
the loop-carried local `new_last_checked_block` still holds wallet A's value
when B's check fails, and `if new_last_checked_block:` then persists that
stale value for wallet B. -/
theorem stale_check_result_regresses_cursor :
    (∀ (a : String) (start : Int) (txs : List Tx),
        adapterC2 a start = .ok txs → ∀ t ∈ txs, start ≤ t.blockNumber)
    ∧ (monitorTick adapterC2 storageC2 .unbound).2 = none
    ∧ mapFind (monitorTick adapterC2 storageC2 .unbound).1.storage.store 1 =
        some [⟨"0xaa", "", .val 100, false⟩, ⟨"0xbb", "", .val 100, false⟩]
    ∧ ((100 : Int) < 200) := by
  refine ⟨?_, by decide, by decide, by decide⟩
  intro a start txs h t ht
  simp only [adapterC2] at h
  by_cases h1 : a = "0xaa"
  · rw [if_pos h1] at h
    by_cases h2 : start ≤ 100
    · rw [if_pos h2] at h
      injection h with h3
      subst h3
      have : t = (⟨0, 100⟩ : Tx) := by simpa using ht
      subst this
      exact h2
    · rw [if_neg h2] at h
      injection h with h3
      subst h3
      simp at ht
  · rw [if_neg h1] at h
    simp at h

/-- C5, code bug.  Subscriber 1's first wallet record has no
`last_checked_block` key; a healthy wallet with a pending transaction comes
right after it in the same tick.  The tick aborts with the `KeyError`
re-raised by the error handler's own log statement (not caught by the
monitor loop, whose handlers cover only `CancelledError` and `ClientError`,
so the polling loop terminates), no data-error notification is sent, no
other watch of the tick is processed, and storage is untouched. -/
theorem missing_cursor_key_crashes_tick :
    (monitorTick adapterC5 storageC5 .unbound).2 = some .keyError
    ∧ (monitorTick adapterC5 storageC5 .unbound).1.log = []
    ∧ (monitorTick adapterC5 storageC5 .unbound).1.storage = storageC5 := by
  decide

/-- C8, code bug.  For a subscriber with no stored record, `add_wallet`
writes the new record to the table with `put_item` and then raises
`UnboundLocalError` on the cache-update line (`tracked_wallets` is only
assigned in the existing-record branch), so the call never returns the
resolved address: `add` cannot succeed for a first-time subscriber.  The
run also shows the table/cache divergence the crash leaves behind: the
store has the new watch (with the supplied starting cursor) while the cache
does not. -/
theorem add_wallet_first_record_raises :
    add_wallet (fun _ => none) false ⟨[], []⟩ 1 "0xabcd" "#tag" 1000 =
      (⟨[(1, [⟨"0xabcd", "#tag", .val 1000, false⟩])], []⟩, none,
        some .unboundLocal) := by
  decide

/-- C3.  For every batch the transaction adapter returns in ascending block
order, the per-watch check dispatches exactly one notification per
transaction, in batch order (oldest first), and returns the block number of
the batch's last transaction - which the ascending order makes the highest
block of the batch - as the new cursor; for an empty batch it dispatches
nothing and returns no new cursor, leaving the stored cursor unchanged. -/
theorem check_batch_events_and_cursor (chat : Int) (addr : String)
    (txs : List Tx)
    (hasc : List.Chain' (fun a b => a.blockNumber ≤ b.blockNumber) txs) :
    (check_wallet_transactions chat addr txs).1 =
        txs.map (fun t => Act.dispatch chat addr t)
    ∧ (check_wallet_transactions chat addr txs).2 =
        txs.getLast?.map Tx.blockNumber
    ∧ ∀ t ∈ txs, ∀ m, (check_wallet_transactions chat addr txs).2 = some m →
        t.blockNumber ≤ m := by
  match hl : txs.getLast? with
  | none =>
      have hnil : txs = [] := List.getLast?_eq_none_iff.mp hl
      subst hnil
      refine ⟨rfl, rfl, ?_⟩
      intro t ht
      cases ht
  | some lastTx =>
      have hc :
          check_wallet_transactions chat addr txs =
            (txs.map (fun t => Act.dispatch chat addr t),
              some lastTx.blockNumber) := by
        unfold check_wallet_transactions
        rw [hl]
      rw [hc]
      refine ⟨rfl, rfl, ?_⟩
      intro t ht m hm
      injection hm with hm2
      subst hm2
      exact blockNumber_le_getLast txs hasc lastTx hl t ht

/-- C3, witness at the batch of the claim: blocks `[10, 10, 12]` (ascending,
prior cursor 9) yield exactly 3 dispatched events and new cursor 12. -/
theorem check_batch_events_and_cursor_witness :
    List.Chain' (fun a b => a.blockNumber ≤ b.blockNumber) batchC3
    ∧ (check_wallet_transactions 7 "0xw" batchC3).1.length = 3
    ∧ (check_wallet_transactions 7 "0xw" batchC3).2 = some 12 := by
  have hasc : List.Chain' (fun a b => a.blockNumber ≤ b.blockNumber) batchC3 := by
    norm_num [batchC3, List.chain'_cons]
  have h := check_batch_events_and_cursor 7 "0xw" batchC3 hasc
  refine ⟨hasc, ?_, ?_⟩
  · rw [h.1]
    decide
  · rw [h.2.1]
    decide

/-- C4.  In the gas loop, with the default `update_threshold` (5), an alert
is sent to a subscriber iff at least one of the three prices differs from the
subscriber's last-sent snapshot (default baseline all zeros) by strictly more
than the threshold; when the alert is sent the snapshot entry is overwritten
with the new reading, when it is not the snapshot entry is unchanged, and a
reading none of whose components exceeds the threshold - in particular one
differing by exactly the threshold - sends nothing. -/
theorem gas_alert_iff_threshold_exceeded (lastSent : Option GasReading)
    (r : GasReading) :
    ((monitor_gas_prices_step update_threshold lastSent r).2 = true ↔
      (update_threshold < |r.low - (lastSent.getD ⟨0, 0, 0⟩).low| ∨
        update_threshold < |r.average - (lastSent.getD ⟨0, 0, 0⟩).average| ∨
        update_threshold < |r.fast - (lastSent.getD ⟨0, 0, 0⟩).fast|))
    ∧ ((monitor_gas_prices_step update_threshold lastSent r).2 = true →
        (monitor_gas_prices_step update_threshold lastSent r).1 = some r)
    ∧ ((monitor_gas_prices_step update_threshold lastSent r).2 = false →
        (monitor_gas_prices_step update_threshold lastSent r).1 = lastSent)
    ∧ (|r.low - (lastSent.getD ⟨0, 0, 0⟩).low| ≤ update_threshold ∧
        |r.average - (lastSent.getD ⟨0, 0, 0⟩).average| ≤ update_threshold ∧
        |r.fast - (lastSent.getD ⟨0, 0, 0⟩).fast| ≤ update_threshold →
        (monitor_gas_prices_step update_threshold lastSent r).2 = false) := by
  by_cases h :
      update_threshold < |r.low - (lastSent.getD ⟨0, 0, 0⟩).low| ∨
        update_threshold < |r.average - (lastSent.getD ⟨0, 0, 0⟩).average| ∨
        update_threshold < |r.fast - (lastSent.getD ⟨0, 0, 0⟩).fast|
  · have hs : monitor_gas_prices_step update_threshold lastSent r =
        (some r, true) := by
      unfold monitor_gas_prices_step
      rw [if_pos h]
    rw [hs]
    refine ⟨iff_of_true rfl h, fun _ => rfl, fun hf => by simp at hf,
      fun hb => ?_⟩
    rcases h with h | h | h
    · exact absurd h (not_lt.mpr hb.1)
    · exact absurd h (not_lt.mpr hb.2.1)
    · exact absurd h (not_lt.mpr hb.2.2)
  · have hs : monitor_gas_prices_step update_threshold lastSent r =
        (lastSent, false) := by
      unfold monitor_gas_prices_step
      rw [if_neg h]
    rw [hs]
    exact ⟨iff_of_false (by simp) h, fun ht => by simp at ht, fun _ => rfl,
      fun _ => rfl⟩

/-- C4, witness: with snapshot `(10, 10, 10)`, the reading `(16, 10, 10)`
(difference 6 > 5) sends an alert and the reading `(15, 10, 10)` (difference
exactly 5) does not. -/
theorem gas_alert_iff_threshold_exceeded_witness :
    (monitor_gas_prices_step update_threshold (some ⟨10, 10, 10⟩)
        ⟨16, 10, 10⟩).2 = true
    ∧ (monitor_gas_prices_step update_threshold (some ⟨10, 10, 10⟩)
        ⟨15, 10, 10⟩).2 = false := by
  have h := gas_alert_iff_threshold_exceeded (some ⟨10, 10, 10⟩) ⟨16, 10, 10⟩
  have h2 := gas_alert_iff_threshold_exceeded (some ⟨10, 10, 10⟩) ⟨15, 10, 10⟩
  refine ⟨h.1.mpr (Or.inl (by decide)), ?_⟩
  exact h2.2.2.2 ⟨by decide, by decide, by decide⟩

/-- C10.  A subscriber with no recorded snapshot is compared against the
default baseline of all zeros, so (for the non-negative prices the gas
oracle yields) the first successful fetch sends an alert iff one of the
three prices strictly exceeds `update_threshold`, and when it does, the
fetched reading becomes the subscriber's snapshot. -/
theorem first_reading_against_zero_baseline (r : GasReading)
    (h1 : 0 ≤ r.low) (h2 : 0 ≤ r.average) (h3 : 0 ≤ r.fast) :
    ((monitor_gas_prices_step update_threshold none r).2 = true ↔
      (update_threshold < r.low ∨ update_threshold < r.average ∨
        update_threshold < r.fast))
    ∧ ((monitor_gas_prices_step update_threshold none r).2 = true →
        (monitor_gas_prices_step update_threshold none r).1 = some r) := by
  have e1 : |r.low - ((none : Option GasReading).getD ⟨0, 0, 0⟩).low| =
      r.low := by
    show |r.low - 0| = r.low
    rw [sub_zero, abs_of_nonneg h1]
  have e2 : |r.average - ((none : Option GasReading).getD ⟨0, 0, 0⟩).average| =
      r.average := by
    show |r.average - 0| = r.average
    rw [sub_zero, abs_of_nonneg h2]
  have e3 : |r.fast - ((none : Option GasReading).getD ⟨0, 0, 0⟩).fast| =
      r.fast := by
    show |r.fast - 0| = r.fast
    rw [sub_zero, abs_of_nonneg h3]
  by_cases h : update_threshold < r.low ∨ update_threshold < r.average ∨
      update_threshold < r.fast
  · have hs : monitor_gas_prices_step update_threshold none r =
        (some r, true) := by
      unfold monitor_gas_prices_step
      rw [if_pos (by rw [e1, e2, e3]; exact h)]
    rw [hs]
    exact ⟨iff_of_true rfl h, fun _ => rfl⟩
  · have hs : monitor_gas_prices_step update_threshold none r =
        (none, false) := by
      unfold monitor_gas_prices_step
      rw [if_neg (by rw [e1, e2, e3]; exact h)]
    rw [hs]
    exact ⟨iff_of_false (by simp) h, fun ht => by simp at ht⟩

/-- C10, witness: a fresh subscriber's first reading `(10, 0, 0)` (low price
10 > 5) sends an alert and installs the reading as the snapshot. -/
theorem first_reading_against_zero_baseline_witness :
    (0 : Int) ≤ 10
    ∧ (monitor_gas_prices_step update_threshold none ⟨10, 0, 0⟩).2 = true
    ∧ (monitor_gas_prices_step update_threshold none ⟨10, 0, 0⟩).1 =
        some ⟨10, 0, 0⟩ := by
  have h := first_reading_against_zero_baseline ⟨10, 0, 0⟩ (by decide)
    (by decide) (by decide)
  have hsent := h.1.mpr (Or.inl (by decide))
  exact ⟨by decide, hsent, h.2 hsent⟩

/-- C6, counterexample.  A failing table write during `update_wallet` is
caught and only logged: the call returns normally (no error of any kind
reaches the caller), refuting the claim's "the error is reported to the
caller".  (The state - store and cache alike - is returned unchanged, so the
cache-consistency part of the claim does hold.) -/
theorem failed_write_not_reported_to_caller :
    update_wallet true ⟨[(1, [walletC6])], [(1, [walletC6])]⟩ 1 [] =
      (⟨[(1, [walletC6])], [(1, [walletC6])]⟩, none) := by
  decide

/-- C6, amended.  For every Cursor Store write operation, a failing store
write leaves both the store and the cached entry unchanged (so cache and
store never diverge from a failed write) and is attempted only once; but the
failure reaches the caller only for `add` - which signals it by returning
`None` instead of the resolved address - while `update` and `remove` (for a
subscriber that has a record) swallow the error after logging it and return
normally, reporting nothing. -/
theorem write_failure_cache_unchanged_and_swallowed (st : StorageState)
    (chat : Int) (ws tracked : List Wallet) (addr tag : String) (blk : Int)
    (hrec : mapFind st.store chat = some tracked)
    (hens : ends_with_eth addr = false) :
    update_wallet true st chat ws = (st, none)
    ∧ remove_wallet true st chat addr = (st, none)
    ∧ add_wallet (fun _ => none) true st chat addr tag blk =
        (st, none, none) := by
  refine ⟨rfl, ?_, ?_⟩
  · simp [remove_wallet, hrec]
  · simp [add_wallet, hens, hrec]

/-- C6, witness for the amended theorem, on a store holding one record for
subscriber 1. -/
theorem write_failure_cache_unchanged_and_swallowed_witness :
    mapFind ((⟨[(1, [walletC6])], [(1, [walletC6])]⟩ : StorageState).store) 1 =
        some [walletC6]
    ∧ ends_with_eth "0xee" = false
    ∧ remove_wallet true ⟨[(1, [walletC6])], [(1, [walletC6])]⟩ 1 "0xee" =
        (⟨[(1, [walletC6])], [(1, [walletC6])]⟩, none)
    ∧ add_wallet (fun _ => none) true ⟨[(1, [walletC6])], [(1, [walletC6])]⟩
        1 "0xee" "" 0 = (⟨[(1, [walletC6])], [(1, [walletC6])]⟩, none, none) := by
  have h := write_failure_cache_unchanged_and_swallowed
    ⟨[(1, [walletC6])], [(1, [walletC6])]⟩ 1 [] [walletC6] "0xee" "" 0
    (by decide) (by decide)
  exact ⟨by decide, by decide, h.2.1, h.2.2⟩

/-- C7, counterexample.  Subscriber 1 was deleted from the Store
out-of-band, so the refresh scan is empty - yet after the full refresh the
cache still maps subscriber 1 to its old watch list, refuting the claim that
entries for subscribers no longer present in the Store do not remain in the
cache. -/
theorem refresh_keeps_stale_entry :
    update_db_cache [(1, [walletC7])] [] = [(1, [walletC7])]
    ∧ mapFind ([] : WalletMap) 1 = none := by
  decide

/-- C7, amended.  After a full cache refresh, every subscriber present in
the Store's scan is mapped by the cache to exactly the scanned watch list;
but a cache entry for a subscriber absent from the scan is left exactly as
it was, so stale entries for subscribers deleted from the Store survive the
refresh. -/
theorem refresh_matches_scan_on_scanned_subscribers (cache : WalletMap)
    (items : List (Int × List Wallet)) (chat : Int) :
    (chat ∉ items.map Prod.fst →
      mapFind (update_db_cache cache items) chat = mapFind cache chat)
    ∧ ∀ ws, (items.map Prod.fst).Nodup → (chat, ws) ∈ items →
      mapFind (update_db_cache cache items) chat = some ws := by
  refine ⟨update_db_cache_find_of_not_mem items cache chat, fun ws => ?_⟩
  induction items generalizing cache with
  | nil =>
      intro _ hmem
      cases hmem
  | cons it t ih =>
      intro hnd hmem
      rw [List.map_cons, List.nodup_cons] at hnd
      have hstep :
          update_db_cache cache (it :: t) =
            update_db_cache (mapInsert cache it.1 it.2) t := rfl
      rcases List.mem_cons.mp hmem with heq | hmem2
      · have hnotin : chat ∉ List.map Prod.fst t := by
          have hh := hnd.1
          rw [← heq] at hh
          exact hh
        rw [hstep, update_db_cache_find_of_not_mem t _ chat hnotin, ← heq]
        exact mapFind_mapInsert_self cache chat ws
      · rw [hstep]
        exact ih (mapInsert cache it.1 it.2) hnd.2 hmem2

/-- C7, witness for the amended theorem: the scan holds subscriber 2 with an
empty watch list; after the refresh the cache maps 2 to that list, while the
stale entry of subscriber 1 (absent from the scan) is untouched. -/
theorem refresh_matches_scan_on_scanned_subscribers_witness :
    ((1 : Int) ∉ ([(2, ([] : List Wallet))].map Prod.fst))
    ∧ mapFind (update_db_cache [(1, [walletC7])] [(2, [])]) 1 =
        some [walletC7]
    ∧ ([(2, ([] : List Wallet))].map Prod.fst).Nodup
    ∧ mapFind (update_db_cache [(1, [walletC7])] [(2, [])]) 2 = some [] := by
  have h1 := refresh_matches_scan_on_scanned_subscribers [(1, [walletC7])]
    [(2, [])] 1
  have h2 := refresh_matches_scan_on_scanned_subscribers [(1, [walletC7])]
    [(2, [])] 2
  refine ⟨by decide, ?_, by decide, ?_⟩
  · exact (h1.1 (by decide)).trans (by decide)
  · exact h2.2 [] (by decide) (by decide)

/-- C9, counterexample.  The claim asserts that for every processing time a
burst of 101 events yields a delay of at least twice the base delay
`max(7, processing_time * 0.5)`.  At processing time 20 with the maximum
delay 15 that the wallet loop passes, the base delay is 10 and the returned
delay is `min(20, 15) = 15 < 20`: the cap beats the promised lower bound. -/
theorem pacing_101_below_double_base :
    calculate_sleep_time 101 20 15 < 2 * base_sleep_time 20 := by
  have hb : base_sleep_time 20 = 10 := by
    unfold base_sleep_time
    norm_num [max_def]
  have hc : calculate_sleep_time 101 20 15 = 15 := by
    show min (base_sleep_time 20 * 2) 15 = 15
    rw [hb]
    norm_num [min_def]
  rw [hb, hc]
  norm_num

/-- C9, amended.  For every processing time and configured maximum delay,
the pacing function returns `min(2 * base, max)` for a burst of 101 events
and `min(base, max)` for a burst of 10 events (where base is
`max(7, processing_time * 0.5)`), and its result never exceeds the
configured maximum: the tier scaling promised by the claim holds only until
the cap bites. -/
theorem pacing_delay_is_capped_scaling (pt m : ℚ) :
    calculate_sleep_time 101 pt m = min (2 * base_sleep_time pt) m
    ∧ calculate_sleep_time 10 pt m = min (base_sleep_time pt) m
    ∧ ∀ n : ℕ, calculate_sleep_time n pt m ≤ m := by
  refine ⟨?_, rfl, fun n => ?_⟩
  · show min (base_sleep_time pt * 2) m = min (2 * base_sleep_time pt) m
    rw [mul_comm]
  · unfold calculate_sleep_time
    split_ifs <;> exact min_le_right _ _
